/-
Verification development for the dermatology lesion-analysis pipeline:
a shallow embedding of `backend/app/ml/risk/risk_predictor.py`,
`backend/app/ml/dermatology/abcde_analyzer.py` and the orchestration in
`backend/app/api/endpoints/dermatology.py`, together with theorems settling
the specification claims about them.

Modelling conventions:
* Python floats are embedded as exact rationals (`ℚ`); `round(x, 2)` is
  embedded as exact round-half-to-even at two decimals (`pyRound2`), matching
  Python's documented banker's rounding.
* Quantities produced by the external OpenCV collaborator (contour moments,
  perimeter, area, enclosing-circle radius, masked-pixel statistics) are taken
  as inputs of the embedded feature extractors; the repository's arithmetic on
  them is reproduced exactly.
* Python `try`/`except` recovery is embedded by total functions together with
  explicit alternative results (`assess_risk_degraded`, `default_scores`), and
  the Grad-CAM step of the endpoint as an `Except` value that the pipeline
  pattern-matches, mirroring the `try`/`except` at lines 99-109 of
  `dermatology.py`.
-/
import Mathlib

namespace DermAssist

/-! ## Rounding: Python `round(x, 2)` -/

/-- Round a rational to the nearest integer, ties to even — the rounding mode
of Python's builtin `round`. -/
def roundHalfEven (x : ℚ) : ℤ :=
  if x - ⌊x⌋ < 1/2 then ⌊x⌋
  else if 1/2 < x - ⌊x⌋ then ⌊x⌋ + 1
  else if ⌊x⌋ % 2 = 0 then ⌊x⌋ else ⌊x⌋ + 1

/-- Python's `round(q, 2)`: round half-to-even at two decimal places. -/
def pyRound2 (q : ℚ) : ℚ := (roundHalfEven (q * 100) : ℚ) / 100

/-! ## Decimal formatting used in the risk-factor strings

`f"{x:.2%}"` and `f"{x:.1f}"` from `risk_predictor.py`.  No claim depends on
the rendered digits; the formatter follows Python's fixed-point rendering
(round half-to-even at the requested precision). -/

def padZeros (s : String) (w : ℕ) : String :=
  if s.length < w then String.mk (List.replicate (w - s.length) '0') ++ s else s

def fmtFixed (q : ℚ) (d : ℕ) : String :=
  let n : ℤ := roundHalfEven (q * (10 : ℚ) ^ d)
  let sign := if n < 0 then "-" else ""
  let m : ℕ := n.natAbs
  let ip : ℕ := m / 10 ^ d
  let fp : ℕ := m % 10 ^ d
  if d = 0 then sign ++ toString ip
  else sign ++ toString ip ++ "." ++ padZeros (toString fp) d

/-- Python `f"{q:.2%}"`. -/
def fmtPct (q : ℚ) : String := fmtFixed (q * 100) 2 ++ "%"

/-- Python `f"{q:.1f}"`. -/
def fmt1f (q : ℚ) : String := fmtFixed q 1

/-! ## Python's `needle in haystack` substring test -/

/-- `takesLead needle hay` is true when `needle` occurs at the head of `hay`. -/
def takesLead : List Char → List Char → Bool
  | [], _ => true
  | _ :: _, [] => false
  | c :: cs, d :: ds => c == d && takesLead cs ds

/-- `hasSub needle hay` is true when `needle` occurs contiguously in `hay`. -/
def hasSub (needle : List Char) : List Char → Bool
  | [] => takesLead needle []
  | c :: t => takesLead needle (c :: t) || hasSub needle t

/-- Python's `needle in haystack` on strings. -/
def strContains (haystack needle : String) : Bool :=
  hasSub needle.toList haystack.toList

/-! ## Data model -/

/-- The dictionary returned by `ABCDEAnalyzer.analyze` (all five keys are
always present in every dictionary the repository constructs). -/
structure AbcdeScores where
  asymmetry : ℚ
  border : ℚ
  color : ℚ
  diameter_mm : ℚ
  evolution : String
deriving DecidableEq

/-- `patient_data['family_history']`: Python dict truthiness of the
`melanoma` / `skin_cancer` entries (an absent key is falsy). -/
structure FamilyHistory where
  melanoma : Bool
  skin_cancer : Bool
deriving DecidableEq

/-- `patient_data['medical_history']`: truthiness of `smoking` and
`regular_skin_checks`. -/
structure MedicalHistory where
  smoking : Bool
  regular_skin_checks : Bool
deriving DecidableEq

/-- The optional `patient_data` dictionary consumed by
`RiskPredictor.assess_risk`.  `age = some 0` embeds a present but falsy
Python age of `0`; `none` embeds an absent / `None` entry, and likewise for
the nested dictionaries. -/
structure PatientData where
  age : Option ℕ
  skin_type : Option String
  family_history : Option FamilyHistory
  medical_history : Option MedicalHistory
deriving DecidableEq

/-- The dictionary returned by `RiskPredictor.assess_risk` (both the normal
and the degraded branch populate exactly these five keys). -/
structure RiskAssessment where
  overall_risk : String
  melanoma_risk_score : ℚ
  risk_factors : List String
  protective_factors : List String
  recommendation : String
deriving DecidableEq

/-! ## RiskPredictor (`risk_predictor.py`)

`assess_risk` is embedded as a chain of blocks following the source's comment
sections; the running value is the pair/triple
(melanoma_risk, risk_factors, protective_factors). -/

def LOW_RISK_THRESHOLD : ℚ := 3/10

def HIGH_RISK_THRESHOLD : ℚ := 7/10

/-- Lines 50-58: base melanoma risk and first risk factor from the predicted
class. -/
def baseRisk (prediction_class : String) (confidence : ℚ) : ℚ × List String :=
  if prediction_class = "MEL" then
    (confidence, ["AI detected melanoma (confidence: " ++ fmtPct confidence ++ ")"])
  else if prediction_class = "BCC" ∨ prediction_class = "SCC" then
    (3/10, ["AI detected " ++ prediction_class])
  else
    (1/10, [])

/-- Lines 61-76: the four ABCDE-gated increments.  `none` embeds a falsy
(`None` or empty) `abcde_scores` dictionary; the repository's own call sites
always pass the full five-key dictionary produced by `analyze`, so
`.get(key, 0)` is plain field access. -/
def abcdeAdj (abcde_scores : Option AbcdeScores) (s : ℚ × List String) : ℚ × List String :=
  match abcde_scores with
  | none => s
  | some ab =>
    let t1 := if ab.asymmetry > 6/10 then (s.1 + 1/10, s.2 ++ ["High asymmetry score"]) else s
    let t2 := if ab.border > 6/10 then (t1.1 + 1/10, t1.2 ++ ["Irregular border detected"]) else t1
    let t3 := if ab.color > 7/10 then (t2.1 + 1/10, t2.2 ++ ["High color variation"]) else t2
    if ab.diameter_mm > 6 then
      (t3.1 + 15/100, t3.2 ++ ["Lesion diameter > 6mm (" ++ fmt1f ab.diameter_mm ++ "mm)"])
    else t3

/-- Lines 80-85: `if age and age > 60: ... elif age and age < 30: ...`.
Python's truthiness of the integer `age` is the conjunct `a ≠ 0`. -/
def ageAdj (age : Option ℕ) (t : ℚ × List String × List String) :
    ℚ × List String × List String :=
  match age with
  | none => t
  | some a =>
    if a ≠ 0 ∧ 60 < a then (t.1 + 1/10, t.2.1 ++ ["Age > 60"], t.2.2)
    else if a ≠ 0 ∧ a < 30 then (t.1, t.2.1, t.2.2 ++ ["Age < 30"])
    else t

/-- Lines 87-90: `skin_type = patient_data.get('skin_type', '')` followed by
the substring test `'Type I' in skin_type or 'Type II' in skin_type`. -/
def skinAdj (skin_type : Option String) (t : ℚ × List String × List String) :
    ℚ × List String × List String :=
  if strContains (skin_type.getD "") "Type I" || strContains (skin_type.getD "") "Type II" then
    (t.1 + 15/100, t.2.1 ++ ["Fair skin (Fitzpatrick Type I-II)"], t.2.2)
  else t

/-- Lines 92-95: `family_history.get('melanoma') or family_history.get('skin_cancer')`. -/
def familyAdj (fh : Option FamilyHistory) (t : ℚ × List String × List String) :
    ℚ × List String × List String :=
  let f := fh.getD ⟨false, false⟩
  if f.melanoma || f.skin_cancer then
    (t.1 + 2/10, t.2.1 ++ ["Family history of melanoma/skin cancer"], t.2.2)
  else t

/-- Lines 97-101: protective-factor notes only (no score change). -/
def medicalAdj (mh : Option MedicalHistory) (t : ℚ × List String × List String) :
    ℚ × List String × List String :=
  let m := mh.getD ⟨false, false⟩
  let t1 := if !m.smoking then (t.1, t.2.1, t.2.2 ++ ["Non-smoker"]) else t
  if m.regular_skin_checks then (t1.1, t1.2.1, t1.2.2 ++ ["Regular skin checks"]) else t1

/-- Lines 79-101: the whole `if patient_data:` block. -/
def patientAdj (patient_data : Option PatientData) (s : ℚ × List String) :
    ℚ × List String × List String :=
  match patient_data with
  | none => (s.1, s.2, [])
  | some p =>
    medicalAdj p.medical_history
      (familyAdj p.family_history (skinAdj p.skin_type (ageAdj p.age (s.1, s.2, []))))

/-- Lines 46-102: the accumulated (pre-cap) melanoma risk, risk factors and
protective factors of `RiskPredictor.assess_risk`. -/
def computeRisk (prediction_class : String) (confidence : ℚ)
    (abcde_scores : Option AbcdeScores) (patient_data : Option PatientData) :
    ℚ × List String × List String :=
  patientAdj patient_data (abcdeAdj abcde_scores (baseRisk prediction_class confidence))

/-- Lines 44-126 of `risk_predictor.py`: the normal (non-raising) path of
`RiskPredictor.assess_risk`.  The source computes `overall_risk` and
`recommendation` in one three-way `if` over the capped score; the two `if`
chains below have identical conditions. -/
def assess_risk (prediction_class : String) (confidence : ℚ)
    (abcde_scores : Option AbcdeScores) (patient_data : Option PatientData) :
    RiskAssessment :=
  let r := computeRisk prediction_class confidence abcde_scores patient_data
  let melanoma_risk := min r.1 1
  { overall_risk :=
      if melanoma_risk < LOW_RISK_THRESHOLD then "low"
      else if melanoma_risk < HIGH_RISK_THRESHOLD then "medium"
      else "high"
    melanoma_risk_score := pyRound2 melanoma_risk
    risk_factors := if r.2.1 = [] then ["No significant risk factors identified"] else r.2.1
    protective_factors := r.2.2
    recommendation :=
      if melanoma_risk < LOW_RISK_THRESHOLD then
        "Monitor lesion. Schedule routine dermatology check-up."
      else if melanoma_risk < HIGH_RISK_THRESHOLD then
        "Dermatologist consultation recommended within 4 weeks."
      else
        "Urgent dermatologist consultation recommended within 2 weeks." }

/-- Lines 128-136: the fixed result of the `except` branch of `assess_risk`;
in the embedding, any internal exception of the Python scoring is represented
by this constant. -/
def assess_risk_degraded : RiskAssessment :=
  { overall_risk := "medium"
    melanoma_risk_score := 1/2
    risk_factors := ["Unable to complete full risk assessment"]
    protective_factors := []
    recommendation := "Consult with a dermatologist for proper evaluation." }

/-! ## ABCDEAnalyzer (`abcde_analyzer.py`)

The OpenCV-derived measurements of one candidate lesion contour.  Each field
records the output of the named external call made by the analyzer; the
analyzer's own arithmetic on these values is embedded exactly. -/

/-- Measurements of one contour produced by the external OpenCV collaborator:
* `m00` — `cv2.moments(contour)["m00"]` (zeroth area moment);
* `minWidth` — `min(half1.shape[1], half2.shape[1])`, the overlapping width of
  the two mask halves split at the centroid;
* `meanDiff` — `np.mean(diff)`, the mean absolute pixel difference of the two
  mirrored halves (pixels are 0-255, so it is nonnegative);
* `perimeter` — `cv2.arcLength(contour, True)`;
* `area` — `cv2.contourArea(contour)`;
* `numLesionPixels` — `len(lesion_pixels)` under the filled contour mask;
* `avgVariance` — `np.mean(np.var(lesion_pixels, axis=0))` (nonnegative);
* `radius` — the `cv2.minEnclosingCircle(contour)` radius. -/
structure SegmentationData where
  m00 : ℚ
  minWidth : ℕ
  meanDiff : ℚ
  perimeter : ℚ
  area : ℚ
  numLesionPixels : ℕ
  avgVariance : ℚ
  radius : ℚ
deriving DecidableEq

/-- The Python float `math.pi` (the IEEE-754 double nearest to π), exactly. -/
def mathPi : ℚ := 884279719003555 / 281474976710656

/-- Lines 72-80: `_default_scores`, returned when no contour is found or the
analysis raises. -/
def default_scores : AbcdeScores :=
  { asymmetry := 1/2, border := 1/2, color := 1/2, diameter_mm := 5, evolution := "unknown" }

/-- Lines 82-117: `_calculate_asymmetry`.  Returns `0.5` for a zero area
moment or an empty overlap, otherwise `min(meanDiff/255 * 2, 1.0)`. -/
def calculate_asymmetry (s : SegmentationData) : ℚ :=
  if s.m00 = 0 then 1/2
  else if 0 < s.minWidth then min (s.meanDiff / 255 * 2) 1
  else 1/2

/-- Lines 119-144: `_calculate_border_irregularity`.  `0.5` for zero area;
a zero perimeter with nonzero area would raise `ZeroDivisionError` in the
Python float division, which the local `except` turns into `0.5`; otherwise
`min(max(1 - 4·π·area/perimeter², 0), 1)`. -/
def calculate_border_irregularity (s : SegmentationData) : ℚ :=
  if s.area = 0 then 1/2
  else if s.perimeter = 0 then 1/2
  else min (max (1 - 4 * mathPi * s.area / s.perimeter ^ 2) 0) 1

/-- Lines 146-173: `_calculate_color_variation`.  `0.5` when the mask selects
no pixels, otherwise `min(avgVariance / 2000, 1.0)`. -/
def calculate_color_variation (s : SegmentationData) : ℚ :=
  if s.numLesionPixels = 0 then 1/2
  else min (s.avgVariance / 2000) 1

/-- Lines 175-194: `_estimate_diameter` with the default
`pixels_per_mm = 10.0`: `2 * radius / 10`. -/
def estimate_diameter (s : SegmentationData) : ℚ := 2 * s.radius / 10

/-- Line 49: `max(contours, key=cv2.contourArea)` — Python's `max` keeps the
first element among ties, i.e. replaces the accumulator only on a strictly
greater key. -/
def pickLesion (c : SegmentationData) : List SegmentationData → SegmentationData
  | [] => c
  | b :: t => pickLesion (if b.area > c.area then b else c) t

/-- Lines 23-70: `ABCDEAnalyzer.analyze`, after segmentation.  The input list
is the contour list returned by `cv2.findContours`; the empty list is the
`if not contours:` branch (line 44), which returns the defaults.  An image
that fails to load, and any exception inside the `try`, likewise yield
`default_scores` via the outer `except` (lines 68-70). -/
def analyze : List SegmentationData → AbcdeScores
  | [] => default_scores
  | c :: rest =>
    let lesion := pickLesion c rest
    { asymmetry := pyRound2 (calculate_asymmetry lesion)
      border := pyRound2 (calculate_border_irregularity lesion)
      color := pyRound2 (calculate_color_variation lesion)
      diameter_mm := pyRound2 (estimate_diameter lesion)
      evolution := "unknown" }

/-! ## Endpoint pipeline (`dermatology.py`, `analyze_skin_lesion`) -/

/-- The classifier's prediction (external collaborator): the fields of the
`prediction` dictionary the pipeline reads when scoring risk. -/
structure PredictionResult where
  primary_prediction : String
  confidence : ℚ
deriving DecidableEq

/-- The `visualization` part of the response (lines 156-159). -/
structure Visualization where
  gradcam_path : Option String
  segmentation_mask : Option String
deriving DecidableEq

/-- The aggregate response assembled at lines 144-162. -/
structure AnalysisResponse where
  diagnosis : PredictionResult
  abcde_score : AbcdeScores
  skin_tone : String
  visualization : Visualization
  risk_assessment : RiskAssessment
  recommendation : String
deriving DecidableEq

/-- Lines 83-164 of `dermatology.py`: the analysis sequence of
`analyze_skin_lesion` after upload/database bookkeeping.  External steps enter
as values: the classifier prediction, the contour list found by segmentation,
the skin-tone label, the patient risk factors, and the Grad-CAM step as an
`Except` whose `error` case is the caught exception of the `try` at lines
99-109 (on which `gradcam_path` is set to `None`).  On success the response's
visualization path is `"/heatmaps/" ++ filename` (line 157). -/
def analyze_skin_lesion (prediction : PredictionResult)
    (contours : List SegmentationData) (skin_tone : String)
    (gradcam : Except String String) (patient_data : Option PatientData) :
    AnalysisResponse :=
  let abcde_scores := analyze contours
  let gradcam_path : Option String :=
    match gradcam with
    | .error _ => none
    | .ok filename => some filename
  let risk_assessment :=
    assess_risk prediction.primary_prediction prediction.confidence
      (some abcde_scores) patient_data
  { diagnosis := prediction
    abcde_score := abcde_scores
    skin_tone := skin_tone
    visualization :=
      { gradcam_path := gradcam_path.map (fun filename => "/heatmaps/" ++ filename)
        segmentation_mask := none }
    risk_assessment := risk_assessment
    recommendation := risk_assessment.recommendation }

/-! ## The spec's tier map (for the refinement claim C1) -/

/-- Modelled from the spec's words (§4.5 step 5 / §3 RiskAssessment
invariant): "score<0.3 → low; 0.3≤score<0.7 → medium; score≥0.7 → high",
to be compared against the tier the code assigns. -/
def specTier (score : ℚ) : String :=
  if score < 3/10 then "low" else if score < 7/10 then "medium" else "high"

/-! ## Helper lemmas about the rounding -/

theorem roundHalfEven_bounds (x : ℚ) :
    x - 1/2 ≤ (roundHalfEven x : ℚ) ∧ (roundHalfEven x : ℚ) ≤ x + 1/2 := by
  have h1 : (⌊x⌋ : ℚ) ≤ x := Int.floor_le x
  have h2 : x < ⌊x⌋ + 1 := Int.lt_floor_add_one x
  unfold roundHalfEven
  split_ifs with ha hb hc <;> constructor <;> push_cast <;> linarith

theorem roundHalfEven_mono {x y : ℚ} (h : x ≤ y) :
    roundHalfEven x ≤ roundHalfEven y := by
  by_contra hc
  push_neg at hc
  have hq : (roundHalfEven y : ℚ) + 1 ≤ (roundHalfEven x : ℚ) := by
    exact_mod_cast Int.add_one_le_iff.mpr hc
  have bx := roundHalfEven_bounds x
  have by' := roundHalfEven_bounds y
  have hxy : x = y := le_antisymm h (by linarith [bx.1, bx.2, by'.1, by'.2])
  rw [hxy] at hc
  exact lt_irrefl _ hc

theorem pyRound2_mono {x y : ℚ} (h : x ≤ y) : pyRound2 x ≤ pyRound2 y := by
  unfold pyRound2
  have hr : roundHalfEven (x * 100) ≤ roundHalfEven (y * 100) :=
    roundHalfEven_mono (by linarith)
  have : (roundHalfEven (x * 100) : ℚ) ≤ (roundHalfEven (y * 100) : ℚ) := by
    exact_mod_cast hr
  linarith

theorem roundHalfEven_eq_low {x : ℚ} {n : ℤ} (h1 : (n : ℚ) ≤ x) (h2 : x < n + 1/2) :
    roundHalfEven x = n := by
  have hf : ⌊x⌋ = n := Int.floor_eq_iff.mpr ⟨h1, by push_cast; linarith⟩
  unfold roundHalfEven
  rw [hf, if_pos (by push_cast; linarith)]

theorem roundHalfEven_eq_high {x : ℚ} {n : ℤ} (h1 : (n : ℚ) - 1/2 < x) (h2 : x ≤ n) :
    roundHalfEven x = n := by
  rcases eq_or_lt_of_le h2 with heq | hlt
  · have hf : ⌊x⌋ = n := by rw [heq]; exact Int.floor_intCast n
    unfold roundHalfEven
    rw [hf, if_pos (by rw [heq]; push_cast; linarith)]
  · have hf : ⌊x⌋ = n - 1 :=
      Int.floor_eq_iff.mpr ⟨by push_cast; linarith, by push_cast; linarith⟩
    unfold roundHalfEven
    rw [hf, if_neg (by push_cast; linarith), if_pos (by push_cast; linarith)]
    omega

theorem roundHalfEven_eq {x : ℚ} {n : ℤ} (h1 : (n : ℚ) - 1/2 < x) (h2 : x < n + 1/2) :
    roundHalfEven x = n := by
  rcases le_or_lt (n : ℚ) x with h | h
  · exact roundHalfEven_eq_low h h2
  · exact roundHalfEven_eq_high h1 (le_of_lt h)

/-- Evaluation rule for `pyRound2` away from exact ties. -/
theorem pyRound2_eval {q r : ℚ} {n : ℤ} (h1 : (n : ℚ) - 1/2 < q * 100)
    (h2 : q * 100 < n + 1/2) (h3 : (n : ℚ) / 100 = r) : pyRound2 q = r := by
  unfold pyRound2
  rw [roundHalfEven_eq h1 h2, h3]

theorem pyRound2_zero : pyRound2 0 = 0 :=
  pyRound2_eval (n := 0) (by norm_num) (by norm_num) (by norm_num)

theorem pyRound2_one : pyRound2 1 = 1 :=
  pyRound2_eval (n := 100) (by norm_num) (by norm_num) (by norm_num)

theorem pyRound2_tenth : pyRound2 (1/10) = 1/10 :=
  pyRound2_eval (n := 10) (by norm_num) (by norm_num) (by norm_num)

theorem pyRound2_nonneg {x : ℚ} (h : 0 ≤ x) : 0 ≤ pyRound2 x := by
  have := pyRound2_mono h
  rwa [pyRound2_zero] at this

theorem pyRound2_le_one {x : ℚ} (h : x ≤ 1) : pyRound2 x ≤ 1 := by
  have := pyRound2_mono h
  rwa [pyRound2_one] at this

theorem pyRound2_ge_tenth {x : ℚ} (h : 1/10 ≤ x) : 1/10 ≤ pyRound2 x := by
  have := pyRound2_mono h
  rwa [pyRound2_tenth] at this

/-! ## Helper lemmas about the scoring blocks -/

theorem baseRisk_MEL_fst (c : ℚ) : (baseRisk "MEL" c).1 = c := by
  simp [baseRisk]

theorem baseRisk_fst_ge_tenth (pc : String) (c : ℚ) (h : pc ≠ "MEL") :
    1/10 ≤ (baseRisk pc c).1 := by
  unfold baseRisk
  split_ifs with h1 h2
  · exact absurd h1 h
  · norm_num
  · norm_num

theorem abcdeAdj_fst_diff (ab : Option AbcdeScores) (s t : ℚ × List String) :
    (abcdeAdj ab s).1 - s.1 = (abcdeAdj ab t).1 - t.1 := by
  cases ab with
  | none => simp [abcdeAdj]
  | some a =>
    simp only [abcdeAdj]
    split_ifs <;> simp <;> ring

theorem abcdeAdj_fst_ge (ab : Option AbcdeScores) (s : ℚ × List String) :
    s.1 ≤ (abcdeAdj ab s).1 := by
  cases ab with
  | none => simp [abcdeAdj]
  | some a =>
    simp only [abcdeAdj]
    split_ifs <;> simp <;> linarith

theorem ageAdj_none (t : ℚ × List String × List String) : ageAdj none t = t := rfl

theorem ageAdj_over60 {a : ℕ} (h : 60 < a) (t : ℚ × List String × List String) :
    ageAdj (some a) t = (t.1 + 1/10, t.2.1 ++ ["Age > 60"], t.2.2) := by
  simp only [ageAdj]
  rw [if_pos ⟨by omega, h⟩]

theorem ageAdj_under30 {a : ℕ} (h0 : 0 < a) (h : a < 30) (t : ℚ × List String × List String) :
    ageAdj (some a) t = (t.1, t.2.1, t.2.2 ++ ["Age < 30"]) := by
  simp only [ageAdj]
  rw [if_neg (by omega), if_pos ⟨by omega, h⟩]

theorem skinAdj_fst_diff (st : Option String) (t u : ℚ × List String × List String) :
    (skinAdj st t).1 - t.1 = (skinAdj st u).1 - u.1 := by
  unfold skinAdj
  split_ifs <;> simp

theorem skinAdj_fst_ge (st : Option String) (t : ℚ × List String × List String) :
    t.1 ≤ (skinAdj st t).1 := by
  unfold skinAdj
  split_ifs <;> simp <;> linarith

theorem skinAdj_factors_mem (st : Option String) (t : ℚ × List String × List String)
    {x : String} (h : x ∈ t.2.1) : x ∈ (skinAdj st t).2.1 := by
  unfold skinAdj
  split_ifs <;> simp [h]

theorem skinAdj_prot (st : Option String) (t : ℚ × List String × List String) :
    (skinAdj st t).2.2 = t.2.2 := by
  unfold skinAdj
  split_ifs <;> simp

theorem familyAdj_fst_diff (fh : Option FamilyHistory) (t u : ℚ × List String × List String) :
    (familyAdj fh t).1 - t.1 = (familyAdj fh u).1 - u.1 := by
  simp only [familyAdj]
  split_ifs <;> simp

theorem familyAdj_fst_ge (fh : Option FamilyHistory) (t : ℚ × List String × List String) :
    t.1 ≤ (familyAdj fh t).1 := by
  simp only [familyAdj]
  split_ifs with h
  · simp only []
    norm_num
  · simp

theorem familyAdj_factors_mem (fh : Option FamilyHistory) (t : ℚ × List String × List String)
    {x : String} (h : x ∈ t.2.1) : x ∈ (familyAdj fh t).2.1 := by
  simp only [familyAdj]
  split_ifs <;> simp [h]

theorem familyAdj_prot (fh : Option FamilyHistory) (t : ℚ × List String × List String) :
    (familyAdj fh t).2.2 = t.2.2 := by
  simp only [familyAdj]
  split_ifs <;> simp

theorem medicalAdj_fst (mh : Option MedicalHistory) (t : ℚ × List String × List String) :
    (medicalAdj mh t).1 = t.1 := by
  simp only [medicalAdj]
  split_ifs <;> simp

theorem medicalAdj_factors (mh : Option MedicalHistory) (t : ℚ × List String × List String) :
    (medicalAdj mh t).2.1 = t.2.1 := by
  simp only [medicalAdj]
  split_ifs <;> simp

theorem medicalAdj_prot_mem (mh : Option MedicalHistory) (t : ℚ × List String × List String)
    {x : String} (h : x ∈ t.2.2) : x ∈ (medicalAdj mh t).2.2 := by
  simp only [medicalAdj]
  split_ifs <;> simp [h]

theorem patientAdj_fst_ge (pd : Option PatientData) (s : ℚ × List String) :
    s.1 ≤ (patientAdj pd s).1 := by
  cases pd with
  | none => simp [patientAdj]
  | some p =>
    simp only [patientAdj]
    have hage : (s.1, s.2, ([] : List String)).1 ≤ (ageAdj p.age (s.1, s.2, [])).1 := by
      cases hA : p.age with
      | none => simp [ageAdj]
      | some a =>
        simp only [ageAdj]
        split_ifs <;> simp <;> linarith
    calc s.1 = (s.1, s.2, ([] : List String)).1 := rfl
      _ ≤ (ageAdj p.age (s.1, s.2, [])).1 := hage
      _ ≤ (skinAdj p.skin_type (ageAdj p.age (s.1, s.2, []))).1 := skinAdj_fst_ge _ _
      _ ≤ (familyAdj p.family_history (skinAdj p.skin_type (ageAdj p.age (s.1, s.2, [])))).1 :=
          familyAdj_fst_ge _ _
      _ = _ := (medicalAdj_fst _ _).symm

theorem ageAdj_fst_diff (age : Option ℕ) (t u : ℚ × List String × List String) :
    (ageAdj age t).1 - t.1 = (ageAdj age u).1 - u.1 := by
  cases age with
  | none => simp [ageAdj]
  | some a =>
    simp only [ageAdj]
    split_ifs <;> simp

theorem patientAdj_fst_diff (pd : Option PatientData) (s u : ℚ × List String) :
    (patientAdj pd s).1 - s.1 = (patientAdj pd u).1 - u.1 := by
  cases pd with
  | none => simp [patientAdj]
  | some p =>
    simp only [patientAdj, medicalAdj_fst]
    have h1 := ageAdj_fst_diff p.age (s.1, s.2, []) (u.1, u.2, [])
    have h2 := skinAdj_fst_diff p.skin_type (ageAdj p.age (s.1, s.2, []))
      (ageAdj p.age (u.1, u.2, []))
    have h3 := familyAdj_fst_diff p.family_history
      (skinAdj p.skin_type (ageAdj p.age (s.1, s.2, [])))
      (skinAdj p.skin_type (ageAdj p.age (u.1, u.2, [])))
    simp only at h1 h2 h3
    linarith

/-- Projection of the returned score out of `assess_risk`. -/
theorem assess_risk_score (pc : String) (c : ℚ) (ab : Option AbcdeScores)
    (pd : Option PatientData) :
    (assess_risk pc c ab pd).melanoma_risk_score =
      pyRound2 (min (computeRisk pc c ab pd).1 1) := rfl

/-- Projection of the tier out of `assess_risk`. -/
theorem assess_risk_overall (pc : String) (c : ℚ) (ab : Option AbcdeScores)
    (pd : Option PatientData) :
    (assess_risk pc c ab pd).overall_risk =
      (if min (computeRisk pc c ab pd).1 1 < LOW_RISK_THRESHOLD then "low"
       else if min (computeRisk pc c ab pd).1 1 < HIGH_RISK_THRESHOLD then "medium"
       else "high") := rfl

/-- Projection of the factor list out of `assess_risk`. -/
theorem assess_risk_factors (pc : String) (c : ℚ) (ab : Option AbcdeScores)
    (pd : Option PatientData) :
    (assess_risk pc c ab pd).risk_factors =
      (if (computeRisk pc c ab pd).2.1 = [] then ["No significant risk factors identified"]
       else (computeRisk pc c ab pd).2.1) := rfl

/-- Projection of the protective list out of `assess_risk`. -/
theorem assess_risk_prot (pc : String) (c : ℚ) (ab : Option AbcdeScores)
    (pd : Option PatientData) :
    (assess_risk pc c ab pd).protective_factors = (computeRisk pc c ab pd).2.2 := rfl

/-- Projection of the recommendation out of `assess_risk`. -/
theorem assess_risk_rec (pc : String) (c : ℚ) (ab : Option AbcdeScores)
    (pd : Option PatientData) :
    (assess_risk pc c ab pd).recommendation =
      (if min (computeRisk pc c ab pd).1 1 < LOW_RISK_THRESHOLD then
        "Monitor lesion. Schedule routine dermatology check-up."
       else if min (computeRisk pc c ab pd).1 1 < HIGH_RISK_THRESHOLD then
        "Dermatologist consultation recommended within 4 weeks."
       else
        "Urgent dermatologist consultation recommended within 2 weeks.") := rfl

/-! ## Helper lemmas about the feature extractors -/

theorem calculate_asymmetry_bounds (s : SegmentationData) (h : 0 ≤ s.meanDiff) :
    0 ≤ calculate_asymmetry s ∧ calculate_asymmetry s ≤ 1 := by
  unfold calculate_asymmetry
  split_ifs with h1 h2
  · norm_num
  · exact ⟨le_min (by positivity) zero_le_one, min_le_right _ _⟩
  · norm_num

theorem calculate_border_bounds (s : SegmentationData) :
    0 ≤ calculate_border_irregularity s ∧ calculate_border_irregularity s ≤ 1 := by
  unfold calculate_border_irregularity
  split_ifs with h1 h2
  · norm_num
  · norm_num
  · exact ⟨le_min (le_max_right _ _) zero_le_one, min_le_right _ _⟩

theorem calculate_color_bounds (s : SegmentationData) (h : 0 ≤ s.avgVariance) :
    0 ≤ calculate_color_variation s ∧ calculate_color_variation s ≤ 1 := by
  unfold calculate_color_variation
  split_ifs with h1
  · norm_num
  · exact ⟨le_min (by positivity) zero_le_one, min_le_right _ _⟩

theorem estimate_diameter_nonneg (s : SegmentationData) (h : 0 ≤ s.radius) :
    0 ≤ estimate_diameter s := by
  unfold estimate_diameter
  positivity

theorem estimate_diameter_ge_tenth (s : SegmentationData) (h : 1/2 ≤ s.radius) :
    1/10 ≤ estimate_diameter s := by
  unfold estimate_diameter
  linarith

/-- The selected lesion contour is one of the found contours. -/
theorem pickLesion_mem (c : SegmentationData) (cs : List SegmentationData) :
    pickLesion c cs ∈ c :: cs := by
  induction cs generalizing c with
  | nil => simp [pickLesion]
  | cons b t ih =>
    simp only [pickLesion]
    rcases List.mem_cons.mp (ih (if b.area > c.area then b else c)) with h | h
    · rw [h]
      split_ifs <;> simp
    · simp [h]

/-! ## Claim theorems -/

/-- Claim C1, counterexample.  The melanoma confidences 0.299 and 0.3 yield
the same *returned* (rounded) `melanoma_risk_score` of 0.3 but different
`overall_risk` tiers, because the tier is computed from the pre-rounding
score: the claim's purity in the returned score is false. -/
theorem c1_counterexample_rounded_score_not_determining :
    (assess_risk "MEL" (299/1000) none none).melanoma_risk_score =
      (assess_risk "MEL" (3/10) none none).melanoma_risk_score ∧
    (assess_risk "MEL" (299/1000) none none).overall_risk = "low" ∧
    (assess_risk "MEL" (3/10) none none).overall_risk = "medium" := by
  have h1 : (computeRisk "MEL" (299/1000) none none).1 = 299/1000 := by
    norm_num [computeRisk, patientAdj, abcdeAdj, baseRisk]
  have h2 : (computeRisk "MEL" (3/10) none none).1 = 3/10 := by
    norm_num [computeRisk, patientAdj, abcdeAdj, baseRisk]
  refine ⟨?_, ?_, ?_⟩
  · rw [assess_risk_score, assess_risk_score, h1, h2, min_eq_left (by norm_num),
      min_eq_left (by norm_num),
      pyRound2_eval (n := 30) (r := 3/10) (by norm_num) (by norm_num) (by norm_num),
      pyRound2_eval (n := 30) (r := 3/10) (by norm_num) (by norm_num) (by norm_num)]
  · rw [assess_risk_overall, h1, min_eq_left (by norm_num)]
    norm_num [LOW_RISK_THRESHOLD]
  · rw [assess_risk_overall, h2, min_eq_left (by norm_num)]
    norm_num [LOW_RISK_THRESHOLD, HIGH_RISK_THRESHOLD]

/-- Claim C1, amended.  `overall_risk` is a pure deterministic function — the
spec's two-threshold map `specTier` — of the *pre-rounding* capped risk
score, with the tier mapping exact at the boundaries (0.29999→low,
0.3→medium, 0.69999→medium, 0.7→high); the returned `melanoma_risk_score`
is that score rounded to two decimals. -/
theorem c1_overall_risk_is_tier_of_raw_score (pc : String) (c : ℚ)
    (ab : Option AbcdeScores) (pd : Option PatientData) :
    (assess_risk pc c ab pd).overall_risk =
      specTier (min (computeRisk pc c ab pd).1 1) ∧
    (assess_risk pc c ab pd).melanoma_risk_score =
      pyRound2 (min (computeRisk pc c ab pd).1 1) ∧
    (assess_risk "MEL" (29999/100000) none none).overall_risk = "low" ∧
    (assess_risk "MEL" (3/10) none none).overall_risk = "medium" ∧
    (assess_risk "MEL" (69999/100000) none none).overall_risk = "medium" ∧
    (assess_risk "MEL" (7/10) none none).overall_risk = "high" := by
  have hLow : (computeRisk "MEL" (29999/100000) none none).1 = 29999/100000 := by
    norm_num [computeRisk, patientAdj, abcdeAdj, baseRisk]
  have hMidLo : (computeRisk "MEL" (3/10) none none).1 = 3/10 := by
    norm_num [computeRisk, patientAdj, abcdeAdj, baseRisk]
  have hMidHi : (computeRisk "MEL" (69999/100000) none none).1 = 69999/100000 := by
    norm_num [computeRisk, patientAdj, abcdeAdj, baseRisk]
  have hHigh : (computeRisk "MEL" (7/10) none none).1 = 7/10 := by
    norm_num [computeRisk, patientAdj, abcdeAdj, baseRisk]
  refine ⟨?_, rfl, ?_, ?_, ?_, ?_⟩
  · rw [assess_risk_overall]
    simp only [specTier, LOW_RISK_THRESHOLD, HIGH_RISK_THRESHOLD]
  · rw [assess_risk_overall, hLow, min_eq_left (by norm_num)]
    norm_num [LOW_RISK_THRESHOLD]
  · rw [assess_risk_overall, hMidLo, min_eq_left (by norm_num)]
    norm_num [LOW_RISK_THRESHOLD, HIGH_RISK_THRESHOLD]
  · rw [assess_risk_overall, hMidHi, min_eq_left (by norm_num)]
    norm_num [LOW_RISK_THRESHOLD, HIGH_RISK_THRESHOLD]
  · rw [assess_risk_overall, hHigh, min_eq_left (by norm_num)]
    norm_num [LOW_RISK_THRESHOLD, HIGH_RISK_THRESHOLD]

/-- Claim C2, counterexample.  A degenerate single-pixel lesion contour (a
one-point contour has zero area moments, zero perimeter/area, and a
minimum enclosing circle of radius 0) is processed without an exception, and
the returned `diameter_mm` is 0 — not strictly positive. -/
theorem c2_counterexample_single_point_contour :
    (analyze [⟨0, 0, 0, 0, 0, 1, 0, 0⟩]).diameter_mm = 0 ∧
    (analyze [⟨0, 0, 0, 0, 0, 1, 0, 0⟩]).asymmetry = 1/2 ∧
    (analyze [⟨0, 0, 0, 0, 0, 1, 0, 0⟩]).border = 1/2 := by
  have hd : estimate_diameter ⟨0, 0, 0, 0, 0, 1, 0, 0⟩ = 0 := by
    unfold estimate_diameter
    norm_num
  have ha : calculate_asymmetry ⟨0, 0, 0, 0, 0, 1, 0, 0⟩ = 1/2 := by
    unfold calculate_asymmetry
    norm_num
  have hb : calculate_border_irregularity ⟨0, 0, 0, 0, 0, 1, 0, 0⟩ = 1/2 := by
    unfold calculate_border_irregularity
    norm_num
  simp only [analyze, pickLesion]
  rw [hd, ha, hb, pyRound2_zero,
    pyRound2_eval (n := 50) (r := 1/2) (by norm_num) (by norm_num) (by norm_num)]
  norm_num

/-- Claim C2, amended.  On every successfully processed contour list the
returned `asymmetry`, `border` and `color` lie in `[0,1]` and `diameter_mm`
is nonnegative; `diameter_mm` is strictly positive whenever the *selected*
lesion contour (the maximal-area one, `pickLesion`) has a minimum enclosing
circle of radius at least half a pixel (any contour with two distinct
pixels) — regardless of any smaller stray contours alongside it — but a
degenerate radius-0 lesion contour returns `diameter_mm = 0`. -/
theorem c2_abcde_bounds (cs : List SegmentationData)
    (h : ∀ s ∈ cs, 0 ≤ s.meanDiff ∧ 0 ≤ s.avgVariance ∧ 0 ≤ s.radius) :
    (0 ≤ (analyze cs).asymmetry ∧ (analyze cs).asymmetry ≤ 1) ∧
    (0 ≤ (analyze cs).border ∧ (analyze cs).border ≤ 1) ∧
    (0 ≤ (analyze cs).color ∧ (analyze cs).color ≤ 1) ∧
    0 ≤ (analyze cs).diameter_mm ∧
    (∀ c rest, cs = c :: rest → 1/2 ≤ (pickLesion c rest).radius →
      0 < (analyze cs).diameter_mm) := by
  cases cs with
  | nil =>
    refine ⟨⟨?_, ?_⟩, ⟨?_, ?_⟩, ⟨?_, ?_⟩, ?_, fun c rest heq => ?_⟩ <;>
      first
      | norm_num [analyze, default_scores]
      | exact absurd heq (List.noConfusion)
  | cons c rest =>
    have hmem := pickLesion_mem c rest
    obtain ⟨hd, hv, hr⟩ := h _ hmem
    have ha := calculate_asymmetry_bounds (pickLesion c rest) hd
    have hb := calculate_border_bounds (pickLesion c rest)
    have hcol := calculate_color_bounds (pickLesion c rest) hv
    simp only [analyze]
    refine ⟨⟨pyRound2_nonneg ha.1, pyRound2_le_one ha.2⟩,
      ⟨pyRound2_nonneg hb.1, pyRound2_le_one hb.2⟩,
      ⟨pyRound2_nonneg hcol.1, pyRound2_le_one hcol.2⟩,
      pyRound2_nonneg (estimate_diameter_nonneg _ hr), ?_⟩
    intro c' rest' heq hrad
    injection heq with hc hrest
    subst hc
    subst hrest
    have h1 : 1/10 ≤ estimate_diameter (pickLesion c rest) :=
      estimate_diameter_ge_tenth _ hrad
    have h2 := pyRound2_ge_tenth h1
    linarith

/-- Witness for `c2_abcde_bounds` at a concrete contour list: a radius-3
lesion contour next to a stray radius-0 speck contour. -/
theorem c2_abcde_bounds_witness :
    (∀ s ∈ [(⟨1, 1, 100, 12, 9, 50, 500, 3⟩ : SegmentationData),
            (⟨0, 0, 0, 0, 0, 1, 0, 0⟩ : SegmentationData)],
      0 ≤ s.meanDiff ∧ 0 ≤ s.avgVariance ∧ 0 ≤ s.radius) ∧
    1/2 ≤ (pickLesion (⟨1, 1, 100, 12, 9, 50, 500, 3⟩ : SegmentationData)
      [(⟨0, 0, 0, 0, 0, 1, 0, 0⟩ : SegmentationData)]).radius ∧
    (0 ≤ (analyze [(⟨1, 1, 100, 12, 9, 50, 500, 3⟩ : SegmentationData),
        (⟨0, 0, 0, 0, 0, 1, 0, 0⟩ : SegmentationData)]).asymmetry ∧
      (analyze [(⟨1, 1, 100, 12, 9, 50, 500, 3⟩ : SegmentationData),
        (⟨0, 0, 0, 0, 0, 1, 0, 0⟩ : SegmentationData)]).asymmetry ≤ 1) ∧
    (0 ≤ (analyze [(⟨1, 1, 100, 12, 9, 50, 500, 3⟩ : SegmentationData),
        (⟨0, 0, 0, 0, 0, 1, 0, 0⟩ : SegmentationData)]).border ∧
      (analyze [(⟨1, 1, 100, 12, 9, 50, 500, 3⟩ : SegmentationData),
        (⟨0, 0, 0, 0, 0, 1, 0, 0⟩ : SegmentationData)]).border ≤ 1) ∧
    (0 ≤ (analyze [(⟨1, 1, 100, 12, 9, 50, 500, 3⟩ : SegmentationData),
        (⟨0, 0, 0, 0, 0, 1, 0, 0⟩ : SegmentationData)]).color ∧
      (analyze [(⟨1, 1, 100, 12, 9, 50, 500, 3⟩ : SegmentationData),
        (⟨0, 0, 0, 0, 0, 1, 0, 0⟩ : SegmentationData)]).color ≤ 1) ∧
    0 ≤ (analyze [(⟨1, 1, 100, 12, 9, 50, 500, 3⟩ : SegmentationData),
        (⟨0, 0, 0, 0, 0, 1, 0, 0⟩ : SegmentationData)]).diameter_mm ∧
    0 < (analyze [(⟨1, 1, 100, 12, 9, 50, 500, 3⟩ : SegmentationData),
        (⟨0, 0, 0, 0, 0, 1, 0, 0⟩ : SegmentationData)]).diameter_mm := by
  have hyp : ∀ s ∈ [(⟨1, 1, 100, 12, 9, 50, 500, 3⟩ : SegmentationData),
      (⟨0, 0, 0, 0, 0, 1, 0, 0⟩ : SegmentationData)],
      0 ≤ s.meanDiff ∧ 0 ≤ s.avgVariance ∧ 0 ≤ s.radius := by
    intro s hs
    rw [List.mem_cons, List.mem_singleton] at hs
    rcases hs with hs | hs <;> subst hs <;> norm_num
  have hrad : 1/2 ≤ (pickLesion (⟨1, 1, 100, 12, 9, 50, 500, 3⟩ : SegmentationData)
      [(⟨0, 0, 0, 0, 0, 1, 0, 0⟩ : SegmentationData)]).radius := by
    norm_num [pickLesion]
  have happ := c2_abcde_bounds [⟨1, 1, 100, 12, 9, 50, 500, 3⟩, ⟨0, 0, 0, 0, 0, 1, 0, 0⟩] hyp
  exact ⟨hyp, hrad, happ.1, happ.2.1, happ.2.2.1, happ.2.2.2.1,
    happ.2.2.2.2 _ _ rfl hrad⟩

/-- Claim C3 (confirmed).  When segmentation finds zero contours, `analyze`
returns exactly the documented default object without raising, and the
pipeline's risk assessment is computed from precisely that default object. -/
theorem c3_no_contours_defaults (pred : PredictionResult) (st : String)
    (g : Except String String) (pd : Option PatientData) :
    (analyze_skin_lesion pred [] st g pd).abcde_score = default_scores ∧
    default_scores =
      { asymmetry := 1/2, border := 1/2, color := 1/2, diameter_mm := 5,
        evolution := "unknown" } ∧
    (analyze_skin_lesion pred [] st g pd).risk_assessment =
      assess_risk pred.primary_prediction pred.confidence (some default_scores) pd :=
  ⟨rfl, rfl, rfl⟩

/-- Claim C4 (confirmed).  When the Grad-CAM step fails with any exception
`e`, the pipeline still returns the complete result: the visualization path
is `none` and every other component is exactly what the normal path
computes; the embedded pipeline is a total function, so no exception from
the saliency chain reaches the caller. -/
theorem c4_gradcam_failure_tolerated (pred : PredictionResult)
    (cs : List SegmentationData) (st : String) (e : String)
    (pd : Option PatientData) :
    (analyze_skin_lesion pred cs st (Except.error e) pd).visualization.gradcam_path = none ∧
    (analyze_skin_lesion pred cs st (Except.error e) pd).abcde_score = analyze cs ∧
    (analyze_skin_lesion pred cs st (Except.error e) pd).skin_tone = st ∧
    (analyze_skin_lesion pred cs st (Except.error e) pd).diagnosis = pred ∧
    (analyze_skin_lesion pred cs st (Except.error e) pd).risk_assessment =
      assess_risk pred.primary_prediction pred.confidence (some (analyze cs)) pd ∧
    (analyze_skin_lesion pred cs st (Except.error e) pd).recommendation =
      (assess_risk pred.primary_prediction pred.confidence (some (analyze cs)) pd).recommendation :=
  ⟨rfl, rfl, rfl, rfl, rfl, rfl⟩

/-- Claim C5, counterexample.  The degraded fallback carries no flag: a
genuinely computed assessment (class BCC, positive family history, smoker)
agrees with `assess_risk_degraded` on `overall_risk`, on
`melanoma_risk_score` and on `protective_factors`; the result record has no
other non-free-text field, so no explicit flag distinguishes the two. -/
theorem c5_counterexample_degraded_matches_genuine :
    (assess_risk "BCC" (9/10) none
        (some ⟨none, none, some ⟨true, false⟩, some ⟨true, false⟩⟩)).overall_risk =
      assess_risk_degraded.overall_risk ∧
    (assess_risk "BCC" (9/10) none
        (some ⟨none, none, some ⟨true, false⟩, some ⟨true, false⟩⟩)).melanoma_risk_score =
      assess_risk_degraded.melanoma_risk_score ∧
    (assess_risk "BCC" (9/10) none
        (some ⟨none, none, some ⟨true, false⟩, some ⟨true, false⟩⟩)).protective_factors =
      assess_risk_degraded.protective_factors := by
  have h : (computeRisk "BCC" (9/10) none
      (some ⟨none, none, some ⟨true, false⟩, some ⟨true, false⟩⟩)).1 = 1/2 := by
    norm_num [computeRisk, patientAdj, abcdeAdj, baseRisk, ageAdj, skinAdj, familyAdj,
      medicalAdj, show ("BCC" : String) ≠ "MEL" by decide,
      show strContains "" "Type I" = false from rfl,
      show strContains "" "Type II" = false from rfl]
  have hp : (computeRisk "BCC" (9/10) none
      (some ⟨none, none, some ⟨true, false⟩, some ⟨true, false⟩⟩)).2.2 = [] := by
    norm_num [computeRisk, patientAdj, abcdeAdj, baseRisk, ageAdj, skinAdj, familyAdj,
      medicalAdj, show ("BCC" : String) ≠ "MEL" by decide,
      show strContains "" "Type I" = false from rfl,
      show strContains "" "Type II" = false from rfl]
  refine ⟨?_, ?_, ?_⟩
  · rw [assess_risk_overall, h, min_eq_left (by norm_num)]
    norm_num [LOW_RISK_THRESHOLD, HIGH_RISK_THRESHOLD, assess_risk_degraded]
  · rw [assess_risk_score, h, min_eq_left (by norm_num),
      pyRound2_eval (n := 50) (r := 1/2) (by norm_num) (by norm_num) (by norm_num)]
    norm_num [assess_risk_degraded]
  · rw [assess_risk_prot, hp]
    norm_num [assess_risk_degraded]

/-- Claim C5, amended.  On any internal scoring exception the fixed degraded
result (medium / 0.5 / single incomplete-assessment factor / generic
consult recommendation) is returned, but it carries no explicit degraded
flag — it has the same five fields as every genuine result; callers can
distinguish it only through its fixed strings: the genuine path always emits
one of three recommendation strings, and the degraded recommendation is not
among them. -/
theorem c5_degraded_fixed_and_string_distinguishable :
    assess_risk_degraded =
      { overall_risk := "medium", melanoma_risk_score := 1/2,
        risk_factors := ["Unable to complete full risk assessment"],
        protective_factors := [],
        recommendation := "Consult with a dermatologist for proper evaluation." } ∧
    (∀ (pc : String) (c : ℚ) (ab : Option AbcdeScores) (pd : Option PatientData),
      (assess_risk pc c ab pd).recommendation ∈
        ["Monitor lesion. Schedule routine dermatology check-up.",
         "Dermatologist consultation recommended within 4 weeks.",
         "Urgent dermatologist consultation recommended within 2 weeks."]) ∧
    assess_risk_degraded.recommendation ∉
      ["Monitor lesion. Schedule routine dermatology check-up.",
       "Dermatologist consultation recommended within 4 weeks.",
       "Urgent dermatologist consultation recommended within 2 weeks."] := by
  refine ⟨rfl, fun pc c ab pd => ?_, by decide⟩
  rw [assess_risk_rec]
  split_ifs <;> simp

/-- Witness for `c5_degraded_fixed_and_string_distinguishable` at a concrete
input. -/
theorem c5_degraded_witness :
    (assess_risk "NV" 0 none none).recommendation ∈
      ["Monitor lesion. Schedule routine dermatology check-up.",
       "Dermatologist consultation recommended within 4 weeks.",
       "Urgent dermatologist consultation recommended within 2 weeks."] :=
  c5_degraded_fixed_and_string_distinguishable.2.1 "NV" 0 none none

/-- Claim C6 (code bug).  The source tests `'Type I' in skin_type` /
`'Type II' in skin_type` by substring, so the non-fair skin types
"Type III" and "Type IV" also receive the +0.15 fair-skin increment and the
"Fair skin (Fitzpatrick Type I-II)" note: for a benign prediction at
confidence 0.1 the returned score is 0.25 instead of the 0.1 the claim
requires. -/
theorem c6_fair_skin_substring_eval :
    (assess_risk "NV" (1/10) none
        (some ⟨none, some "Type III", none, none⟩)).melanoma_risk_score = 1/4 ∧
    "Fair skin (Fitzpatrick Type I-II)" ∈
      (assess_risk "NV" (1/10) none
        (some ⟨none, some "Type III", none, none⟩)).risk_factors ∧
    (assess_risk "NV" (1/10) none
        (some ⟨none, some "Type IV", none, none⟩)).melanoma_risk_score = 1/4 ∧
    "Fair skin (Fitzpatrick Type I-II)" ∈
      (assess_risk "NV" (1/10) none
        (some ⟨none, some "Type IV", none, none⟩)).risk_factors := by
  have h3 : (computeRisk "NV" (1/10) none
      (some ⟨none, some "Type III", none, none⟩)).1 = 1/4 := by
    norm_num [computeRisk, patientAdj, abcdeAdj, baseRisk, ageAdj, skinAdj, familyAdj,
      medicalAdj, show strContains "Type III" "Type I" = true from rfl,
      show ("NV" : String) ≠ "MEL" by decide, show ("NV" : String) ≠ "BCC" by decide,
      show ("NV" : String) ≠ "SCC" by decide]
  have h4 : (computeRisk "NV" (1/10) none
      (some ⟨none, some "Type IV", none, none⟩)).1 = 1/4 := by
    norm_num [computeRisk, patientAdj, abcdeAdj, baseRisk, ageAdj, skinAdj, familyAdj,
      medicalAdj, show strContains "Type IV" "Type I" = true from rfl,
      show ("NV" : String) ≠ "MEL" by decide, show ("NV" : String) ≠ "BCC" by decide,
      show ("NV" : String) ≠ "SCC" by decide]
  refine ⟨?_, ?_, ?_, ?_⟩
  · rw [assess_risk_score, h3, min_eq_left (by norm_num),
      pyRound2_eval (n := 25) (r := 1/4) (by norm_num) (by norm_num) (by norm_num)]
  · rw [assess_risk_factors]
    norm_num [computeRisk, patientAdj, abcdeAdj, baseRisk, ageAdj, skinAdj, familyAdj,
      medicalAdj, show strContains "Type III" "Type I" = true from rfl,
      show ("NV" : String) ≠ "MEL" by decide, show ("NV" : String) ≠ "BCC" by decide,
      show ("NV" : String) ≠ "SCC" by decide]
  · rw [assess_risk_score, h4, min_eq_left (by norm_num),
      pyRound2_eval (n := 25) (r := 1/4) (by norm_num) (by norm_num) (by norm_num)]
  · rw [assess_risk_factors]
    norm_num [computeRisk, patientAdj, abcdeAdj, baseRisk, ageAdj, skinAdj, familyAdj,
      medicalAdj, show strContains "Type IV" "Type I" = true from rfl,
      show ("NV" : String) ≠ "MEL" by decide, show ("NV" : String) ≠ "BCC" by decide,
      show ("NV" : String) ≠ "SCC" by decide]

/-- Claim C7, counterexample.  At age 0 (`some 0`, a present but falsy
Python value) the `elif age and age < 30:` guard is false, so no
"Age < 30" protective note is appended: the protective factors are exactly
`["Non-smoker"]`. -/
theorem c7_counterexample_age_zero :
    (assess_risk "NV" (1/10) none
        (some ⟨some 0, none, none, none⟩)).protective_factors = ["Non-smoker"] := by
  rw [assess_risk_prot]
  norm_num [computeRisk, patientAdj, abcdeAdj, baseRisk, ageAdj, skinAdj, familyAdj,
    medicalAdj, show strContains "" "Type I" = false from rfl,
    show strContains "" "Type II" = false from rfl,
    show ("NV" : String) ≠ "MEL" by decide, show ("NV" : String) ≠ "BCC" by decide,
    show ("NV" : String) ≠ "SCC" by decide]

/-- Claim C7, amended.  For a present nonzero age: age > 60 adds exactly 0.1
to the accumulated score and appends the "Age > 60" risk factor; a nonzero
age < 30 leaves the accumulated score unchanged and appends the "Age < 30"
protective note.  (A Python age of 0 is falsy and triggers neither branch —
see the counterexample.) -/
theorem c7_age_effects (pc : String) (c : ℚ) (ab : Option AbcdeScores)
    (st : Option String) (fh : Option FamilyHistory) (mh : Option MedicalHistory)
    (a : ℕ) :
    (60 < a →
      (computeRisk pc c ab (some ⟨some a, st, fh, mh⟩)).1 =
        (computeRisk pc c ab (some ⟨none, st, fh, mh⟩)).1 + 1/10 ∧
      "Age > 60" ∈ (assess_risk pc c ab (some ⟨some a, st, fh, mh⟩)).risk_factors) ∧
    (0 < a → a < 30 →
      (computeRisk pc c ab (some ⟨some a, st, fh, mh⟩)).1 =
        (computeRisk pc c ab (some ⟨none, st, fh, mh⟩)).1 ∧
      "Age < 30" ∈ (assess_risk pc c ab (some ⟨some a, st, fh, mh⟩)).protective_factors) := by
  set s := abcdeAdj ab (baseRisk pc c) with hs
  have hfst : ∀ A B : ℚ × List String × List String, A.1 = B.1 + 1/10 →
      (medicalAdj mh (familyAdj fh (skinAdj st A))).1 =
        (medicalAdj mh (familyAdj fh (skinAdj st B))).1 + 1/10 := by
    intro A B hAB
    rw [medicalAdj_fst, medicalAdj_fst]
    have h1 := skinAdj_fst_diff st A B
    have h2 := familyAdj_fst_diff fh (skinAdj st A) (skinAdj st B)
    linarith
  have hfst0 : ∀ A B : ℚ × List String × List String, A.1 = B.1 →
      (medicalAdj mh (familyAdj fh (skinAdj st A))).1 =
        (medicalAdj mh (familyAdj fh (skinAdj st B))).1 := by
    intro A B hAB
    rw [medicalAdj_fst, medicalAdj_fst]
    have h1 := skinAdj_fst_diff st A B
    have h2 := familyAdj_fst_diff fh (skinAdj st A) (skinAdj st B)
    linarith
  constructor
  · intro h60
    have hage := ageAdj_over60 h60 (s.1, s.2, [])
    constructor
    · simp only [computeRisk, patientAdj, ← hs]
      rw [hage, ageAdj_none]
      exact hfst _ _ (by simp)
    · rw [assess_risk_factors]
      have hmem : "Age > 60" ∈
          (computeRisk pc c ab (some ⟨some a, st, fh, mh⟩)).2.1 := by
        simp only [computeRisk, patientAdj, ← hs]
        rw [hage, medicalAdj_factors]
        apply familyAdj_factors_mem
        apply skinAdj_factors_mem
        simp
      rw [if_neg (List.ne_nil_of_mem hmem)]
      exact hmem
  · intro h0 h30
    have hage := ageAdj_under30 h0 h30 (s.1, s.2, [])
    constructor
    · simp only [computeRisk, patientAdj, ← hs]
      rw [hage, ageAdj_none]
      exact hfst0 _ _ (by simp)
    · rw [assess_risk_prot]
      simp only [computeRisk, patientAdj, ← hs]
      rw [hage]
      apply medicalAdj_prot_mem
      rw [familyAdj_prot, skinAdj_prot]
      simp

/-- Witness for `c7_age_effects` at ages 65 and 20. -/
theorem c7_age_effects_witness :
    ((computeRisk "NV" 0 none (some ⟨some 65, none, none, none⟩)).1 =
        (computeRisk "NV" 0 none (some ⟨none, none, none, none⟩)).1 + 1/10 ∧
      "Age > 60" ∈
        (assess_risk "NV" 0 none (some ⟨some 65, none, none, none⟩)).risk_factors) ∧
    ((computeRisk "NV" 0 none (some ⟨some 20, none, none, none⟩)).1 =
        (computeRisk "NV" 0 none (some ⟨none, none, none, none⟩)).1 ∧
      "Age < 30" ∈
        (assess_risk "NV" 0 none (some ⟨some 20, none, none, none⟩)).protective_factors) :=
  ⟨(c7_age_effects "NV" 0 none none none none 65).1 (by norm_num),
   (c7_age_effects "NV" 0 none none none none 20).2 (by norm_num) (by norm_num)⟩

/-- Claim C8 (confirmed).  With the predicted class fixed to the melanoma
class and the ABCDE scores and patient data held fixed, the returned
`melanoma_risk_score` is non-decreasing in the classifier confidence. -/
theorem c8_mel_score_monotone_in_confidence (c1 c2 : ℚ) (ab : Option AbcdeScores)
    (pd : Option PatientData) (h : c1 ≤ c2) :
    (assess_risk "MEL" c1 ab pd).melanoma_risk_score ≤
      (assess_risk "MEL" c2 ab pd).melanoma_risk_score := by
  have hb : (baseRisk "MEL" c1).1 ≤ (baseRisk "MEL" c2).1 := by
    rw [baseRisk_MEL_fst, baseRisk_MEL_fst]
    exact h
  have h1 : (abcdeAdj ab (baseRisk "MEL" c1)).1 ≤ (abcdeAdj ab (baseRisk "MEL" c2)).1 := by
    have := abcdeAdj_fst_diff ab (baseRisk "MEL" c1) (baseRisk "MEL" c2)
    linarith
  have h2 : (computeRisk "MEL" c1 ab pd).1 ≤ (computeRisk "MEL" c2 ab pd).1 := by
    have := patientAdj_fst_diff pd (abcdeAdj ab (baseRisk "MEL" c1))
      (abcdeAdj ab (baseRisk "MEL" c2))
    simp only [computeRisk]
    linarith
  rw [assess_risk_score, assess_risk_score]
  exact pyRound2_mono (min_le_min h2 le_rfl)

/-- Witness for `c8_mel_score_monotone_in_confidence` at confidences 0 and 1. -/
theorem c8_monotone_witness :
    (0 : ℚ) ≤ 1 ∧
    (assess_risk "MEL" 0 none none).melanoma_risk_score ≤
      (assess_risk "MEL" 1 none none).melanoma_risk_score :=
  ⟨by norm_num, c8_mel_score_monotone_in_confidence 0 1 none none (by norm_num)⟩

/-- Claim C9 (confirmed).  Melanoma at confidence 0.9, ABCDE all at 0.8 with
an 8 mm diameter, a 65-year-old Type II patient with melanoma family history:
the score clips to exactly 1.0, the tier is "high", and the recommendation
contains "2 weeks". -/
theorem c9_end_to_end_high_risk :
    (assess_risk "MEL" (9/10) (some ⟨8/10, 8/10, 8/10, 8, "unknown"⟩)
        (some ⟨some 65, some "Type II", some ⟨true, false⟩, none⟩)).melanoma_risk_score = 1 ∧
    (assess_risk "MEL" (9/10) (some ⟨8/10, 8/10, 8/10, 8, "unknown"⟩)
        (some ⟨some 65, some "Type II", some ⟨true, false⟩, none⟩)).overall_risk = "high" ∧
    strContains
      (assess_risk "MEL" (9/10) (some ⟨8/10, 8/10, 8/10, 8, "unknown"⟩)
        (some ⟨some 65, some "Type II", some ⟨true, false⟩, none⟩)).recommendation
      "2 weeks" = true := by
  have h : (computeRisk "MEL" (9/10) (some ⟨8/10, 8/10, 8/10, 8, "unknown"⟩)
      (some ⟨some 65, some "Type II", some ⟨true, false⟩, none⟩)).1 = 9/5 := by
    norm_num [computeRisk, patientAdj, abcdeAdj, baseRisk, ageAdj, skinAdj, familyAdj,
      medicalAdj, show strContains "Type II" "Type I" = true from rfl]
  refine ⟨?_, ?_, ?_⟩
  · rw [assess_risk_score, h, min_eq_right (by norm_num), pyRound2_one]
  · rw [assess_risk_overall, h, min_eq_right (by norm_num)]
    norm_num [LOW_RISK_THRESHOLD, HIGH_RISK_THRESHOLD]
  · rw [assess_risk_rec, h, min_eq_right (by norm_num)]
    rw [if_neg (by norm_num [LOW_RISK_THRESHOLD]), if_neg (by norm_num [HIGH_RISK_THRESHOLD])]
    rfl

/-- Claim C10 (confirmed).  For every non-melanoma prediction the returned
score is at least the 0.1 benign baseline, while a melanoma prediction's
base is the raw confidence with no floor: at confidence 0.05 the melanoma
input scores strictly below the otherwise-identical benign input. -/
theorem c10_benign_floor_and_mel_no_floor :
    (∀ (pc : String) (c : ℚ) (ab : Option AbcdeScores) (pd : Option PatientData),
      pc ≠ "MEL" → 1/10 ≤ (assess_risk pc c ab pd).melanoma_risk_score) ∧
    (assess_risk "MEL" (1/20) none none).melanoma_risk_score <
      (assess_risk "NV" (1/20) none none).melanoma_risk_score := by
  constructor
  · intro pc c ab pd h
    have hb := baseRisk_fst_ge_tenth pc c h
    have h1 := abcdeAdj_fst_ge ab (baseRisk pc c)
    have h2 := patientAdj_fst_ge pd (abcdeAdj ab (baseRisk pc c))
    have hc : 1/10 ≤ (computeRisk pc c ab pd).1 := by
      simp only [computeRisk]
      linarith
    rw [assess_risk_score]
    exact pyRound2_ge_tenth (le_min hc (by norm_num))
  · have hm : (computeRisk "MEL" (1/20) none none).1 = 1/20 := by
      norm_num [computeRisk, patientAdj, abcdeAdj, baseRisk]
    have hn : (computeRisk "NV" (1/20) none none).1 = 1/10 := by
      norm_num [computeRisk, patientAdj, abcdeAdj, baseRisk,
        show ("NV" : String) ≠ "MEL" by decide, show ("NV" : String) ≠ "BCC" by decide,
        show ("NV" : String) ≠ "SCC" by decide]
    rw [assess_risk_score, assess_risk_score, hm, hn, min_eq_left (by norm_num),
      min_eq_left (by norm_num),
      pyRound2_eval (n := 5) (r := 1/20) (by norm_num) (by norm_num) (by norm_num),
      pyRound2_eval (n := 10) (r := 1/10) (by norm_num) (by norm_num) (by norm_num)]
    norm_num

/-- Witness for the floor half of `c10_benign_floor_and_mel_no_floor`. -/
theorem c10_benign_floor_witness :
    ("BCC" : String) ≠ "MEL" ∧
    1/10 ≤ (assess_risk "BCC" 0 none none).melanoma_risk_score :=
  ⟨by decide, c10_benign_floor_and_mel_no_floor.1 "BCC" 0 none none (by decide)⟩

end DermAssist
